import Mathlib

/-!
Verification development for the adpao agent-framework repository.

The embedding models, from the Python sources:
  * `src/agent_frameworks/langgraph/router_web.py` — the sequential real-estate
    pipeline (coordinator, neighborhood, property, price, final coordinator),
    its regex-based slot extraction and its search-result formatting;
  * `src/agent_frameworks/openai_agent_sdk/router.py` — the assistants-API
    query classifier and dispatcher;
  * `src/agent_frameworks/openai_swarm_agent/router.py` — the swarm router.

External services (the Tavily search call and the chat-model call) are modelled
as oracles carried in an `Env` record; a Python exception raised by an external
call is an `Except.error`.  Python strings are Lean `String`s (ASCII fragments
of the regexes are modelled exactly; the Unicode extensions of `\s` and `\d`
are irrelevant to every input considered here).
-/

set_option maxRecDepth 40000

namespace Adpao

/-! Python string primitives -/

/-- ASCII whitespace, the characters matched by the regex class `\s`
(restricted to ASCII, which covers every string in this development). -/
def isPySpace (c : Char) : Bool :=
  c = ' ' || c = '\t' || c = '\n' || c = '\r' || c = '\x0b' || c = '\x0c'

/-- The single-quote character, built numerically. -/
def apos : String := String.singleton (Char.ofNat 39)

/-- Test whether `p` is a prefix of `l` (character lists). -/
def subAt : List Char → List Char → Bool
  | [], _ => true
  | _ :: _, [] => false
  | c :: cs, d :: ds => c = d && subAt cs ds

/-- Occurrence test on character lists: `p` occurs somewhere in the list,
the semantics of the Python `in` operator on strings. -/
def pyInList (p : List Char) : List Char → Bool
  | [] => subAt p []
  | d :: ds => subAt p (d :: ds) || pyInList p ds

/-- Python `sub in s` on strings. -/
def pyIn (sub s : String) : Bool := pyInList sub.toList s.toList

/-- Python `str.lower` (ASCII). -/
def pyLower (s : String) : String := String.mk (s.toList.map Char.toLower)

/-- Concatenation of a list of strings. -/
def strConcat : List String → String
  | [] => ""
  | s :: ss => s ++ strConcat ss

/-! Slot extraction (`router_web.py` lines 106-107, 217-222 and 333-338).

The regexes are compiled by hand, preserving `re.search` leftmost-match
semantics and the greedy/backtracking behaviour of each pattern. -/

/-- Letter-or-whitespace, the regex class `[A-Za-z\s]`. -/
def isLocChar (c : Char) : Bool := c.isAlpha || isPySpace c

/-- Attempt of the pattern `in\s+([A-Za-z\s]+)` at a position whose next two
characters were `i`, `n`: `t` is the text after them.  Greedy `\s+` first
takes the whole whitespace run; if no class character follows, the engine
backtracks one whitespace character into the capture group. -/
def matchLocAt (t : List Char) : Option (List Char) :=
  match t with
  | [] => none
  | c :: _ =>
    if isPySpace c then
      let sp := t.takeWhile isPySpace
      let rest := t.drop sp.length
      let g := rest.takeWhile isLocChar
      if g.isEmpty then
        if 2 ≤ sp.length then some [sp.getLastD ' '] else none
      else some g
    else none

/-- Leftmost search for `in\s+([A-Za-z\s]+)`; returns capture group 1. -/
def searchLoc : List Char → Option (List Char)
  | [] => none
  | 'i' :: 'n' :: t =>
    (match matchLocAt t with
     | some g => some g
     | none => searchLoc ('n' :: t))
  | _ :: cs => searchLoc cs

/-- Location slot: `re.search(r'in\s+([A-Za-z\s]+)', q)` with the fixed
default of the source when no match exists. -/
def extract_location (q : String) : String :=
  match searchLoc q.toList with
  | some g => String.mk g
  | none => "San Francisco"

/-- Character class `[\d,.]`. -/
def isBudChar (c : Char) : Bool := c.isDigit || c = ',' || c = '.'

/-- Attempt of `\$?\d[\d,.]*` at a position; returns the captured token.
When `$` is present but not followed by a digit the optional `$` is dropped,
after which the position must itself start with a digit. -/
def moneyTok : List Char → Option (List Char)
  | '$' :: c :: cs =>
    if c.isDigit then some ('$' :: c :: cs.takeWhile isBudChar) else none
  | c :: cs => if c.isDigit then some (c :: cs.takeWhile isBudChar) else none
  | [] => none

/-- Drop a `\s*` run. -/
def dropPySpaces (l : List Char) : List Char := l.dropWhile isPySpace

/-- Attempt of `budget\s*(?:is|of)\s*(\$?\d[\d,.]*)` at a position; returns
capture group 2 of the budget regex. -/
def alt2Money (l : List Char) : Option (List Char) :=
  if subAt "budget".toList l then
    let r := dropPySpaces (l.drop 6)
    if subAt "is".toList r || subAt "of".toList r then
      moneyTok (dropPySpaces (r.drop 2))
    else none
  else none

/-- Leftmost search for the budget regex
`(\$?\d[\d,.]*)\s*(?:k|K|thousand)?(?:\s*per\s*month)?|(?:budget\s*(?:is|of)\s*(\$?\d[\d,.]*))(?:\s*per\s*month)?`.
The optional suffixes never affect whether a position matches, so they are not
modelled.  The result is the pair (group 1, group 2) of the first match, where
the first alternative is tried before the second at every position. -/
def searchBudget : List Char → Option (Option (List Char) × Option (List Char))
  | [] => none
  | c :: cs =>
    match moneyTok (c :: cs) with
    | some g => some (some g, none)
    | none =>
      match alt2Money (c :: cs) with
      | some g2 => some (none, some g2)
      | none => searchBudget cs

/-- Budget slot as the source computes it:
`budget_match.group(1) if budget_match else "$3000"`.  `none` is Python
`None`, which the source obtains whenever the second alternative produced the
leftmost match (its number lives in group 2, which the source never reads). -/
def extract_budget (q : String) : Option String :=
  match searchBudget q.toList with
  | some (some g, _) => some (String.mk g)
  | some (none, _) => none
  | none => some "$3000"

/-- Budget slot as the claim words it: the first numeric token, or the number
of an explicit budget phrase, with the fixed default.  Written from the
claim text to compare with `extract_budget`. -/
def budget_claimed (q : String) : String :=
  match searchBudget q.toList with
  | some (some g, _) => String.mk g
  | some (none, some g2) => String.mk g2
  | some (none, none) => "$3000"
  | none => "$3000"

/-! Search payloads.

A Tavily response reaching the formatting code is a Python value: the model
covers strings, integers, lists and string-keyed mappings, which is every
shape the formatting code distinguishes (floating-point score fields never
reach any branch that the claims mention and are left out). -/

inductive PVal where
  | str : String → PVal
  | num : Int → PVal
  | list : List PVal → PVal
  | dict : List (String × PVal) → PVal

/-- Escaping of one character inside a Python string repr (ASCII model). -/
def pyEscapeChar (c : Char) : String :=
  if c = '\\' then "\\\\"
  else if c = Char.ofNat 39 then "\\" ++ apos
  else if c = '\n' then "\\n"
  else if c = '\r' then "\\r"
  else if c = '\t' then "\\t"
  else String.singleton c

/-- Python `repr` of a string (single-quoted ASCII model). -/
def pyReprStr (s : String) : String :=
  apos ++ strConcat (s.toList.map pyEscapeChar) ++ apos

mutual

/-- Python `repr` of a value. -/
def pyReprV : PVal → String
  | .str s => pyReprStr s
  | .num n => toString n
  | .list xs => "[" ++ pyReprElems xs ++ "]"
  | .dict kvs => "\x7b" ++ pyReprPairs kvs ++ "\x7d"

/-- Comma-separated reprs of list elements. -/
def pyReprElems : List PVal → String
  | [] => ""
  | [x] => pyReprV x
  | x :: y :: xs => pyReprV x ++ ", " ++ pyReprElems (y :: xs)

/-- Comma-separated `key: value` reprs of mapping entries. -/
def pyReprPairs : List (String × PVal) → String
  | [] => ""
  | [kv] => pyReprStr kv.1 ++ ": " ++ pyReprV kv.2
  | kv :: kv2 :: kvs => pyReprStr kv.1 ++ ": " ++ pyReprV kv.2 ++ ", " ++ pyReprPairs (kv2 :: kvs)

end

/-- Python `str`: the identity on strings, `repr` on the other shapes,
which is what an f-string interpolation applies. -/
def pyStrV : PVal → String
  | .str s => s
  | .num n => toString n
  | .list xs => "[" ++ pyReprElems xs ++ "]"
  | .dict kvs => "\x7b" ++ pyReprPairs kvs ++ "\x7d"

/-- Mapping lookup (Python dicts have unique keys, so first match). -/
def plookup : List (String × PVal) → String → Option PVal
  | [], _ => none
  | (k, v) :: rest, key => if k = key then some v else plookup rest key

/-- Python `d.get(key, default)`. -/
def pgetD (kvs : List (String × PVal)) (k : String) (d : PVal) : PVal :=
  match plookup kvs k with
  | some v => v
  | none => d

/-! URL extraction: `re.findall(r'https?://[^\s]+', text)`. -/

/-- Greedy `[^\s]+` tail of a URL match: the non-whitespace run, which must be
nonempty; returns the run and the rest of the input. -/
def urlTail (r : List Char) : Option (List Char × List Char) :=
  let tk := r.takeWhile (fun c => !isPySpace c)
  if tk.isEmpty then none else some (tk, r.drop tk.length)

/-- Attempt of `https?://[^\s]+` at a position; returns the match and the rest
of the input.  When the scheme with `s` is present the alternative without `s`
cannot match at the same position, matching the backtracking of the engine. -/
def urlAt (l : List Char) : Option (List Char × List Char) :=
  if subAt "https://".toList l then
    (urlTail (l.drop 8)).map (fun p => ("https://".toList ++ p.1, p.2))
  else if subAt "http://".toList l then
    (urlTail (l.drop 7)).map (fun p => ("http://".toList ++ p.1, p.2))
  else none

/-- Fuelled scan for non-overlapping URL matches, left to right.  The fuel is
the length of the remaining input, which each step strictly decreases, so the
scan is exactly `re.findall`. -/
def findUrlsAux : Nat → List Char → List String
  | 0, _ => []
  | _ + 1, [] => []
  | n + 1, c :: cs =>
    match urlAt (c :: cs) with
    | some (tk, rest) => String.mk tk :: findUrlsAux n rest
    | none => findUrlsAux n cs

/-- All URL-shaped substrings of a string, in order. -/
def findUrls (s : String) : List String := findUrlsAux s.toList.length s.toList

/-! Result formatting, translated from `neighborhood_agent` /
`property_agent` (`router_web.py` lines 129-182 and 245-298; the two are
byte-identical in the source) and from `price_agent` (lines 358-379).
`none` models a Python exception raised while formatting (an attribute error
from `.get` on a non-mapping, or iteration over a non-sequence), which the
handler's `except` turns into its canned fallback. -/

/-- Block for one entry of a `results` list (case 1):
`f"\n\n- {content}\n🔗 SOURCE: {url}"` with the `content`/`snippet` probe.
A non-mapping entry raises on `.get`. -/
def resultBlock (r : PVal) : Option String :=
  match r with
  | .dict kvs =>
    some ("\n\n- " ++ pyStrV (pgetD kvs "content" (pgetD kvs "snippet" (PVal.str "No content available")))
      ++ "\n🔗 SOURCE: " ++ pyStrV (pgetD kvs "url" (PVal.str "No source URL available")))
  | _ => none

/-- Concatenated blocks of a `results` list, first raise wins. -/
def resultsBlocks : List PVal → Option String
  | [] => some ""
  | r :: rs =>
    match resultBlock r, resultsBlocks rs with
    | some b, some bs => some (b ++ bs)
    | _, _ => none

/-- Line for one citation (case 2): mappings render as `title: url` with
defaults, anything else is stringified. -/
def citationLine (c : PVal) : String :=
  match c with
  | .dict kvs =>
    "\n- " ++ pyStrV (pgetD kvs "title" (PVal.str "Untitled source"))
      ++ ": " ++ pyStrV (pgetD kvs "url" (PVal.str "No URL available"))
  | v => "\n- " ++ pyStrV v

/-- Concatenated citation lines. -/
def citationLines : List PVal → String
  | [] => ""
  | c :: cs => citationLine c ++ citationLines cs

/-- First value among candidate keys, the probe loop of case 3. -/
def probeKeys (kvs : List (String × PVal)) : List String → Option PVal
  | [] => none
  | k :: ks =>
    match plookup kvs k with
    | some v => some v
    | none => probeKeys kvs ks

/-- Block for one element of a bare list (case 3), with the key probes for
content and URL; non-mappings are stringified with their 1-based index. -/
def listBlock (i : Nat) (r : PVal) : String :=
  match r with
  | .dict kvs =>
    let content :=
      match probeKeys kvs ["content", "snippet", "text", "description"] with
      | some v => pyStrV v
      | none => "No content available"
    let url :=
      match probeKeys kvs ["url", "link", "href", "source"] with
      | some v => pyStrV v
      | none => "No source URL available"
    "\n\n- " ++ content ++ "\n🔗 SOURCE: " ++ url
  | v => "\n\n- Result " ++ toString (i + 1) ++ ": " ++ pyStrV v

/-- Concatenated case-3 blocks, indices counting up from `i`. -/
def listBlocks : Nat → List PVal → String
  | _, [] => ""
  | i, r :: rs => listBlock i r ++ listBlocks (i + 1) rs

/-- Lines listing the scanned URLs of case 4. -/
def urlLines : List String → String
  | [] => ""
  | u :: us => "\n- " ++ u ++ urlLines us

/-- Case 4: the stringified payload, then any URL-shaped substrings found. -/
def case4Text (v : PVal) : String :=
  let base := "\n\n" ++ pyStrV v
  let urls := findUrls (pyStrV v)
  if urls.isEmpty then base
  else base ++ "\n\n🔗 SOURCES FOUND:" ++ urlLines urls

/-- Formatter of the neighborhood and property handlers: mapping with a
`results` key, else mapping with `answer` and `citations`, else bare list,
else stringified with a URL scan — in this order.  Iterating a non-list
`results` or `citations` value raises (modelled as `none`; the edge case of a
non-list value that iterates without raising, an empty string, cannot carry
any source item and decides no claim here). -/
def formatResults (sr : PVal) : Option String :=
  match sr with
  | .dict kvs =>
    match plookup kvs "results" with
    | some (.list items) => resultsBlocks items
    | some _ => none
    | none =>
      if (plookup kvs "answer").isSome && (plookup kvs "citations").isSome then
        match plookup kvs "citations" with
        | some (.list cs) =>
          some ("\n\n" ++ pyStrV (pgetD kvs "answer" (PVal.str ""))
            ++ "\n\n🔗 SOURCES:" ++ citationLines cs)
        | _ => none
      else some (case4Text sr)
  | .list items => some (listBlocks 0 items)
  | v => some (case4Text v)

/-- Block for one element of a bare list in the price handler, which probes
only `content` and `url`. -/
def priceListBlock (i : Nat) (r : PVal) : String :=
  match r with
  | .dict kvs =>
    "\n\n- " ++ pyStrV (pgetD kvs "content" (PVal.str "No content available"))
      ++ "\n🔗 SOURCE: " ++ pyStrV (pgetD kvs "url" (PVal.str "No source URL available"))
  | v => "\n\n- Result " ++ toString (i + 1) ++ ": " ++ pyStrV v

/-- Concatenated price-handler list blocks. -/
def priceListBlocks : Nat → List PVal → String
  | _, [] => ""
  | i, r :: rs => priceListBlock i r ++ priceListBlocks (i + 1) rs

/-- Formatter of the price handler: bare list first, then mapping with a
`results` key, then the stringified scan — there is no `answer`/`citations`
case in the source of this handler. -/
def formatResultsPrice (ar : PVal) : Option String :=
  match ar with
  | .list items => some (priceListBlocks 0 items)
  | .dict kvs =>
    match plookup kvs "results" with
    | some (.list items) => resultsBlocks items
    | some _ => none
    | none => some (case4Text ar)
  | v => some (case4Text v)

/-! Conversation state.

`RealEstateState` carries one message list with the `add_messages` reducer;
every node returns the old list plus one new message, and the reducer keeps
existing messages in place (matching them by identifier) and appends the new
one, so a node is a function from transcript to transcript. -/

inductive Role where
  | system
  | user
  | assistant
deriving DecidableEq

structure Msg where
  role : Role
  content : String
deriving DecidableEq

/-- Python `isinstance(msg, HumanMessage)`. -/
def isHuman (m : Msg) : Bool :=
  match m.role with
  | .user => true
  | _ => false

/-- Python `isinstance(msg, AIMessage)`. -/
def isAI (m : Msg) : Bool :=
  match m.role with
  | .assistant => true
  | _ => false

/-- External collaborators: the Tavily search tool and the chat model.  An
`Except.error` is a raised Python exception. -/
structure Env where
  search : String → Except String PVal
  generate : List Msg → Except String String

/-- Last element of the human messages of the transcript, when any. -/
def lastUser (st : List Msg) : Option Msg := (st.filter isHuman).getLast?

/-- Location slot derived from the transcript (`user_messages[-1].content`
when present, else the fixed default). -/
def locationFrom (st : List Msg) : String :=
  match lastUser st with
  | some m => extract_location m.content
  | none => "San Francisco"

/-- Budget slot derived from the transcript; `none` is Python `None`. -/
def budgetFrom (st : List Msg) : Option String :=
  match lastUser st with
  | some m => extract_budget m.content
  | none => some "$3000"

/-- Python `str` of the budget slot, as an f-string interpolates it. -/
def budgetStr : Option String → String
  | some b => b
  | none => "None"

/-- Search query of the neighborhood handler. -/
def neighborhoodQuery (loc : String) : String :=
  "Best neighborhoods in " ++ loc ++ " for families, safety, and amenities"

/-- Search query shared by the property and price handlers. -/
def listingsQuery (loc b : String) : String :=
  "Apartment listings in " ++ loc ++ " under " ++ b ++ " per month"

/-- Announcement appended by the coordinator node. -/
def coordinatorMsg : String := "Real Estate Coordinator: Starting sub-agent processing..."

/-- Coordinator node (`router_web.py` lines 89-92). -/
def coordinator (st : List Msg) : List Msg :=
  st ++ [⟨Role.assistant, coordinatorMsg⟩]

/-- Canned narrative of the neighborhood handler on any failure. -/
def neighborhoodFallback (loc : String) : String :=
  "Neighborhood Agent: I couldn" ++ apos ++ "t retrieve specific information about "
    ++ loc
    ++ " neighborhoods. However, generally speaking, when evaluating neighborhoods, consider factors like crime rates, school quality, proximity to amenities, and transportation options."

/-- Neighborhood node (lines 95-202): extract the location, search, format;
a raised search or formatting exception yields the canned narrative. -/
def neighborhood_agent (env : Env) (st : List Msg) : List Msg :=
  match env.search (neighborhoodQuery (locationFrom st)) with
  | .ok sr =>
    match formatResults sr with
    | some fr =>
      st ++ [⟨Role.assistant,
        "Neighborhood Agent: Based on my search, I found the following about neighborhoods in "
          ++ locationFrom st ++ ":" ++ fr⟩]
    | none => st ++ [⟨Role.assistant, neighborhoodFallback (locationFrom st)⟩]
  | .error _ => st ++ [⟨Role.assistant, neighborhoodFallback (locationFrom st)⟩]

/-- Canned narrative of the property handler on any failure. -/
def propertyFallback (loc : String) : String :=
  "Property Agent: I couldn" ++ apos ++ "t retrieve current property listings for "
    ++ loc
    ++ ". To find apartments in your budget range, I recommend checking popular real estate websites like Zillow, Apartments.com, or Redfin, which typically have extensive listings with detailed information."

/-- Property node (lines 205-318). -/
def property_agent (env : Env) (st : List Msg) : List Msg :=
  match env.search (listingsQuery (locationFrom st) (budgetStr (budgetFrom st))) with
  | .ok sr =>
    match formatResults sr with
    | some fr =>
      st ++ [⟨Role.assistant,
        "Property Agent: Here are some property listings I found in "
          ++ locationFrom st ++ ":" ++ fr⟩]
    | none => st ++ [⟨Role.assistant, propertyFallback (locationFrom st)⟩]
  | .error _ => st ++ [⟨Role.assistant, propertyFallback (locationFrom st)⟩]

/-- Canned narrative of the price handler on any failure; the f-string
interpolates the budget slot, so a `None` budget renders as `None`. -/
def priceFallback (loc b : String) : String :=
  "Price Agent: I couldn" ++ apos ++ "t retrieve specific pricing information for "
    ++ loc ++ ". With a budget of " ++ b
    ++ ", consider that SF Bay Area apartments typically range from $2,000-$4,000+ for one-bedrooms depending on location and amenities. Always check for additional costs beyond rent."

/-- Budget-analysis lines the price handler appends to its formatted results
(lines 382-384); evaluating `'$' in budget` is what raises when the budget
slot is Python `None`. -/
def priceAnalysisTail (loc b : String) : String :=
  "\n\nBased on these results, apartments in " ++ loc ++ " generally "
    ++ (if pyIn "$" b then "seem to be within" else "may require comparing with")
    ++ " your budget of " ++ b ++ " per month."
    ++ " Remember to factor in additional costs like utilities, parking, pet fees, and security deposits."

/-- Price node (lines 321-393).  The formatted results are computed first;
then the budget-analysis lines are appended, raising a type error when the
budget slot is `None`, so the canned narrative is produced whenever the
search raised, the formatting raised, or the budget slot is `None`. -/
def price_agent (env : Env) (st : List Msg) : List Msg :=
  match env.search (listingsQuery (locationFrom st) (budgetStr (budgetFrom st))) with
  | .ok ar =>
    match formatResultsPrice ar, budgetFrom st with
    | some fr, some b =>
      st ++ [⟨Role.assistant,
        "Price Agent: After analyzing rental prices in " ++ locationFrom st ++ " under " ++ b
          ++ ", here" ++ apos ++ "s what I found:" ++ fr ++ priceAnalysisTail (locationFrom st) b⟩]
    | _, _ => st ++ [⟨Role.assistant, priceFallback (locationFrom st) (budgetStr (budgetFrom st))⟩]
  | .error _ => st ++ [⟨Role.assistant, priceFallback (locationFrom st) (budgetStr (budgetFrom st))⟩]

/-- Messages that the final coordinator treats as agent responses:
assistant messages whose content contains the literal `Agent:`. -/
def agentFilter (m : Msg) : Bool := isAI m && pyIn "Agent:" m.content

/-- Summarization prompt of the final coordinator (lines 407-426), with the
agent responses interpolated as the Python `str` of a list of strings. -/
def summarizationPrompt (agentResults : List String) : String :=
  "\n    You are a helpful real estate assistant. Synthesize the information from various specialized agents\n    into a comprehensive, well-organized summary for the user. Include:\n    \n    1. Neighborhood insights\n    2. Property listing highlights\n    3. Budget considerations\n    4. Next steps or recommendations\n    \n    CRITICAL REQUIREMENT: You MUST include ALL of the source URLs from the agent responses.\n    NEVER summarize or omit the URLs. Present each URL exactly as shown in the original responses.\n    \n    When presenting information, maintain the same URL format: \"🔗 SOURCE: [url]\"\n    \n    Your response MUST include ALL links from these agent responses:\n    \n    "
    ++ "[" ++ pyReprElems (agentResults.map PVal.str) ++ "]"
    ++ "\n    \n    Present a well-organized, conversational response, but NEVER omit any URLs.\n    "

/-- Focused message list handed to the model by the final coordinator
(lines 429-441): the system prompt, the most recent human message (or the
fixed default), then every agent response message, in transcript order. -/
def focusedMessages (st : List Msg) : List Msg :=
  let agentResults := (st.filter agentFilter).map Msg.content
  let systemMsg : Msg := ⟨Role.system, summarizationPrompt agentResults⟩
  let humanMsg : Msg :=
    match (st.filter isHuman).getLast? with
    | some m => m
    | none => ⟨Role.user, "Find me apartments"⟩
  systemMsg :: humanMsg :: st.filter agentFilter

/-- Hand-authored fallback answer of the final coordinator (lines 451-466),
transcribed byte for byte from the triple-quoted literal. -/
def finalFallback : String :=
  "\n            Based on the information gathered about apartments in San Francisco:\n            \n            1. Neighborhood Insights: The Outer Sunset, Noe Valley, and Inner Sunset are known for being safe and family-friendly.\n            \n            2. Property Options: For your budget of $3,000, check these resources:\n            - Rent.com: https://www.rent.com/california/san-francisco-apartments/max-price-3000\n            - ForRent.com: https://www.forrent.com/find/CA/metro-San+Francisco+Bay/San+Francisco/price-Less+than+3000\n            - Zillow: https://www.zillow.com/san-francisco-ca/apartments/under-3000/\n            \n            3. Budget Considerations: Remember to account for utilities, parking, and other fees beyond rent.\n            \n            4. Next Steps: Visit properties in person and carefully review lease terms before signing.\n            \n            Would you like more specific information about any of these areas?\n            "

/-- Final coordinator node (lines 396-467): synthesize via the model call,
or append the fixed fallback answer when that call raises. -/
def final_coordinator (env : Env) (st : List Msg) : List Msg :=
  match env.generate (focusedMessages st) with
  | .ok resp => st ++ [⟨Role.assistant, resp⟩]
  | .error _ => st ++ [⟨Role.assistant, finalFallback⟩]

/-- The compiled graph (lines 470-493): a straight line through the five
nodes, `START → coordinator → neighborhood → property → price → final → END`. -/
def pipeline (env : Env) (st : List Msg) : List Msg :=
  final_coordinator env (price_agent env (property_agent env (neighborhood_agent env (coordinator st))))

/-- Reply of the entry point when the final state has no assistant message. -/
def norespMsg : String :=
  "I" ++ apos ++ "m sorry, I couldn" ++ apos ++ "t generate a response to your real estate query."

/-- Entry point (lines 496-526): run the graph on the fresh one-message state
and return the content of the last assistant message.  The thread identifier
parameter is never read in the body (no checkpointing is configured), and no
node of the model raises, so the `except` arm of the source is unreachable
here. -/
def run_real_estate_agent (env : Env) (query : String) (threadId : Option String) : String :=
  match ((pipeline env [⟨Role.user, query⟩]).filter isAI).getLast? with
  | some m => m.content
  | none => norespMsg

/-! Query classifier and dispatch of `openai_agent_sdk/router.py`. -/

inductive Route where
  | sql
  | analysis
  | fallback
deriving DecidableEq

/-- Branch chosen from the router assistant's free-text response
(`router.py` lines 160-176): `"SQL" in r or "database" in r.lower()` takes
the SQL branch, else `"analysis" in r.lower() or "analyze" in r.lower()`
takes the analysis branch, else the fallback. -/
def classifyRoute (r : String) : Route :=
  if pyIn "SQL" r || pyIn "database" (pyLower r) then Route.sql
  else if pyIn "analysis" (pyLower r) || pyIn "analyze" (pyLower r) then Route.analysis
  else Route.fallback

/-- Branch selection as claim C6 words it: keyword matching case-insensitive
for the analysis branch only, hence case-sensitive for both SQL-branch
keywords.  Written from the claim text to compare with `classifyRoute`. -/
def classifyRoute_claimed (r : String) : Route :=
  if pyIn "SQL" r || pyIn "database" r then Route.sql
  else if pyIn "analysis" (pyLower r) || pyIn "analyze" (pyLower r) then Route.analysis
  else Route.fallback

/-- The three assistants the router owns. -/
inductive AssistantKind where
  | router
  | sqlExpert
  | dataAnalyzer
deriving DecidableEq

/-- External collaborator of the assistants-API router: `_run_assistant`
on a given assistant with a given user message. -/
structure SdkEnv where
  runAssistant : AssistantKind → String → Except String String

/-- Classification message sent to the router assistant. -/
def routerPrompt (q : String) : String :=
  "Classify this query and decide which assistant should handle it: " ++ q

namespace AgentRouter

/-- `AgentRouter.process_query` (lines 145-176): classify via the router
assistant, dispatch on the response text, default to returning the response
itself.  There is no exception handling anywhere on this path, so a raised
client exception propagates to the caller. -/
def process_query (env : SdkEnv) (q : String) : Except String String :=
  match env.runAssistant AssistantKind.router (routerPrompt q) with
  | .error e => .error e
  | .ok routerResponse =>
    match classifyRoute routerResponse with
    | Route.sql => env.runAssistant AssistantKind.sqlExpert q
    | Route.analysis => env.runAssistant AssistantKind.dataAnalyzer q
    | Route.fallback => .ok routerResponse

end AgentRouter

namespace SwarmRouter

/-- `SwarmRouter.process_query` (`openai_swarm_agent/router.py` lines 61-73):
run the swarm client and return `response.messages[-1]["content"]`.  The
oracle returns the content list of `response.messages`; there is no exception
handling, so a raised client exception propagates, and an empty message list
raises an index error. -/
def process_query (run : String → Except String (List String)) (q : String) :
    Except String String :=
  match run q with
  | .ok msgs =>
    match msgs.getLast? with
    | some content => .ok content
    | none => .error "IndexError: list index out of range"
  | .error e => .error e

end SwarmRouter

/-! Helper lemmas -/

theorem subAt_append (p : List Char) : ∀ a b : List Char,
    subAt p a = true → subAt p (a ++ b) = true := by
  induction p with
  | nil => intro a b _; rfl
  | cons c cs ih =>
    intro a b h
    cases a with
    | nil => simp [subAt] at h
    | cons d ds =>
      simp only [subAt, Bool.and_eq_true, decide_eq_true_eq] at h
      simp only [List.cons_append, subAt, Bool.and_eq_true, decide_eq_true_eq]
      exact ⟨h.1, ih ds b h.2⟩

theorem subAt_ext (p a b : String) (h : subAt p.toList a.toList = true) :
    subAt p.toList (a ++ b).toList = true := by
  have hd : (a ++ b).toList = a.toList ++ b.toList := String.data_append a b
  rw [hd]
  exact subAt_append _ _ _ h

theorem pyInList_right (p b : List Char) (h : pyInList p b = true) :
    ∀ a : List Char, pyInList p (a ++ b) = true := by
  intro a
  induction a with
  | nil => simpa using h
  | cons c cs ih =>
    simp only [List.cons_append, pyInList, Bool.or_eq_true]
    exact Or.inr ih

theorem pyIn_right (p a b : String) (h : pyIn p b = true) : pyIn p (a ++ b) = true := by
  unfold pyIn at h ⊢
  have hd : (a ++ b).toList = a.toList ++ b.toList := String.data_append a b
  rw [hd]
  exact pyInList_right _ _ h _

/-! Per-stage step lemmas: every node appends exactly one assistant message,
whose content carries the role label of its stage. -/

theorem coordinator_step (st : List Msg) :
    coordinator st = st ++ [⟨Role.assistant, coordinatorMsg⟩] := rfl

theorem neighborhoodFallback_label (loc : String) :
    subAt "Neighborhood Agent:".toList (neighborhoodFallback loc).toList = true := by
  unfold neighborhoodFallback
  exact subAt_ext _ _ _ (subAt_ext _ _ _ (subAt_ext _ _ _ (subAt_ext _ _ _ (by decide))))

theorem neighborhood_step (env : Env) (st : List Msg) :
    ∃ c, neighborhood_agent env st = st ++ [⟨Role.assistant, c⟩]
      ∧ subAt "Neighborhood Agent:".toList c.toList = true := by
  unfold neighborhood_agent
  split
  · split
    · exact ⟨_, rfl, subAt_ext _ _ _ (subAt_ext _ _ _ (subAt_ext _ _ _ (by decide)))⟩
    · exact ⟨_, rfl, neighborhoodFallback_label _⟩
  · exact ⟨_, rfl, neighborhoodFallback_label _⟩

theorem propertyFallback_label (loc : String) :
    subAt "Property Agent:".toList (propertyFallback loc).toList = true := by
  unfold propertyFallback
  exact subAt_ext _ _ _ (subAt_ext _ _ _ (subAt_ext _ _ _ (subAt_ext _ _ _ (by decide))))

theorem property_step (env : Env) (st : List Msg) :
    ∃ c, property_agent env st = st ++ [⟨Role.assistant, c⟩]
      ∧ subAt "Property Agent:".toList c.toList = true := by
  unfold property_agent
  split
  · split
    · exact ⟨_, rfl, subAt_ext _ _ _ (subAt_ext _ _ _ (subAt_ext _ _ _ (by decide)))⟩
    · exact ⟨_, rfl, propertyFallback_label _⟩
  · exact ⟨_, rfl, propertyFallback_label _⟩

theorem priceFallback_label (loc b : String) :
    subAt "Price Agent:".toList (priceFallback loc b).toList = true := by
  unfold priceFallback
  exact subAt_ext _ _ _ (subAt_ext _ _ _ (subAt_ext _ _ _ (subAt_ext _ _ _
    (subAt_ext _ _ _ (subAt_ext _ _ _ (by decide))))))

theorem price_step (env : Env) (st : List Msg) :
    ∃ c, price_agent env st = st ++ [⟨Role.assistant, c⟩]
      ∧ subAt "Price Agent:".toList c.toList = true := by
  unfold price_agent
  split
  · split
    · exact ⟨_, rfl, subAt_ext _ _ _ (subAt_ext _ _ _ (subAt_ext _ _ _ (subAt_ext _ _ _
        (subAt_ext _ _ _ (subAt_ext _ _ _ (subAt_ext _ _ _ (subAt_ext _ _ _ (by decide))))))))⟩
    · exact ⟨_, rfl, priceFallback_label _ _⟩
  · exact ⟨_, rfl, priceFallback_label _ _⟩

theorem final_step (env : Env) (st : List Msg) :
    ∃ c, final_coordinator env st = st ++ [⟨Role.assistant, c⟩] := by
  unfold final_coordinator
  cases hg : env.generate (focusedMessages st) with
  | ok r => exact ⟨r, rfl⟩
  | error e => exact ⟨finalFallback, rfl⟩

/-- Shape of a full pipeline run: the initial user message followed by the
five stage messages, the middle three labelled by their stage. -/
theorem pipeline_shape (env : Env) (q : String) :
    ∃ c2 c3 c4 c5,
      pipeline env [⟨Role.user, q⟩] =
        [⟨Role.user, q⟩, ⟨Role.assistant, coordinatorMsg⟩, ⟨Role.assistant, c2⟩,
          ⟨Role.assistant, c3⟩, ⟨Role.assistant, c4⟩, ⟨Role.assistant, c5⟩]
      ∧ subAt "Neighborhood Agent:".toList c2.toList = true
      ∧ subAt "Property Agent:".toList c3.toList = true
      ∧ subAt "Price Agent:".toList c4.toList = true := by
  obtain ⟨c2, h2, p2⟩ := neighborhood_step env (coordinator [⟨Role.user, q⟩])
  obtain ⟨c3, h3, p3⟩ :=
    property_step env (neighborhood_agent env (coordinator [⟨Role.user, q⟩]))
  obtain ⟨c4, h4, p4⟩ :=
    price_step env (property_agent env (neighborhood_agent env (coordinator [⟨Role.user, q⟩])))
  obtain ⟨c5, h5⟩ :=
    final_step env (price_agent env (property_agent env (neighborhood_agent env
      (coordinator [⟨Role.user, q⟩]))))
  refine ⟨c2, c3, c4, c5, ?_, p2, p3, p4⟩
  unfold pipeline
  rw [h5, h4, h3, h2, coordinator_step]
  rfl

/-- A pipeline run whose final transcript is known reduces the entry point to
the content of the last stage message. -/
theorem run_eq_c5 (env : Env) (q : String) (t : Option String)
    (c2 c3 c4 c5 : String)
    (hp : pipeline env [⟨Role.user, q⟩] =
      [⟨Role.user, q⟩, ⟨Role.assistant, coordinatorMsg⟩, ⟨Role.assistant, c2⟩,
        ⟨Role.assistant, c3⟩, ⟨Role.assistant, c4⟩, ⟨Role.assistant, c5⟩]) :
    run_real_estate_agent env q t = c5 := by
  unfold run_real_estate_agent
  rw [hp]
  rfl

/-- Shape of a full pipeline run when every model call raises: the final
stage message is the fixed fallback answer. -/
theorem pipeline_shape_genfail (env : Env) (q : String)
    (hgen : ∀ msgs, ∃ e, env.generate msgs = Except.error e) :
    ∃ c2 c3 c4,
      pipeline env [⟨Role.user, q⟩] =
        [⟨Role.user, q⟩, ⟨Role.assistant, coordinatorMsg⟩, ⟨Role.assistant, c2⟩,
          ⟨Role.assistant, c3⟩, ⟨Role.assistant, c4⟩, ⟨Role.assistant, finalFallback⟩] := by
  obtain ⟨c2, h2, _⟩ := neighborhood_step env (coordinator [⟨Role.user, q⟩])
  obtain ⟨c3, h3, _⟩ :=
    property_step env (neighborhood_agent env (coordinator [⟨Role.user, q⟩]))
  obtain ⟨c4, h4, _⟩ :=
    price_step env (property_agent env (neighborhood_agent env (coordinator [⟨Role.user, q⟩])))
  have h5 : final_coordinator env (price_agent env (property_agent env
        (neighborhood_agent env (coordinator [⟨Role.user, q⟩])))) =
      price_agent env (property_agent env (neighborhood_agent env
        (coordinator [⟨Role.user, q⟩]))) ++ [⟨Role.assistant, finalFallback⟩] := by
    unfold final_coordinator
    obtain ⟨e, he⟩ := hgen (focusedMessages (price_agent env (property_agent env
      (neighborhood_agent env (coordinator [⟨Role.user, q⟩])))))
    rw [he]
  refine ⟨c2, c3, c4, ?_⟩
  unfold pipeline
  rw [h5, h4, h3, h2, coordinator_step]
  rfl

/-- Environment in which every external call raises. -/
def envDown : Env := ⟨fun _ => Except.error "down", fun _ => Except.error "down"⟩

/-! Claim theorems -/

/-- Claim C1: on every user query and every oracle behaviour, the pipeline
appends exactly five assistant messages to the transcript, in the fixed stage
order — the coordinator announcement, then messages labelled by the
neighborhood, property and price specialists, then the final synthesis
message — with no stage skipped and none repeated. -/
theorem pipeline_five_messages (env : Env) (q : String) :
    ∃ c2 c3 c4 c5,
      pipeline env [⟨Role.user, q⟩] =
        [⟨Role.user, q⟩, ⟨Role.assistant, coordinatorMsg⟩, ⟨Role.assistant, c2⟩,
          ⟨Role.assistant, c3⟩, ⟨Role.assistant, c4⟩, ⟨Role.assistant, c5⟩]
      ∧ subAt "Neighborhood Agent:".toList c2.toList = true
      ∧ subAt "Property Agent:".toList c3.toList = true
      ∧ subAt "Price Agent:".toList c4.toList = true :=
  pipeline_shape env q

/-- Claim C1 witness: the five stage messages at a concrete query under an
environment whose external calls all raise. -/
theorem pipeline_five_messages_witness :
    ∃ c2 c3 c4 c5,
      pipeline envDown [⟨Role.user, "a place to live"⟩] =
        [⟨Role.user, "a place to live"⟩, ⟨Role.assistant, coordinatorMsg⟩,
          ⟨Role.assistant, c2⟩, ⟨Role.assistant, c3⟩, ⟨Role.assistant, c4⟩,
          ⟨Role.assistant, c5⟩]
      ∧ subAt "Neighborhood Agent:".toList c2.toList = true
      ∧ subAt "Property Agent:".toList c3.toList = true
      ∧ subAt "Price Agent:".toList c4.toList = true :=
  pipeline_five_messages envDown "a place to live"

/-- Claim C9: every stage is append-only — its output transcript is the
input transcript, unchanged, extended by exactly one assistant message. -/
theorem transcript_append_only (env : Env) (st : List Msg) :
    (∃ c, coordinator st = st ++ [⟨Role.assistant, c⟩])
    ∧ (∃ c, neighborhood_agent env st = st ++ [⟨Role.assistant, c⟩])
    ∧ (∃ c, property_agent env st = st ++ [⟨Role.assistant, c⟩])
    ∧ (∃ c, price_agent env st = st ++ [⟨Role.assistant, c⟩])
    ∧ (∃ c, final_coordinator env st = st ++ [⟨Role.assistant, c⟩]) := by
  refine ⟨⟨coordinatorMsg, coordinator_step st⟩, ?_, ?_, ?_, final_step env st⟩
  · obtain ⟨c, h, _⟩ := neighborhood_step env st
    exact ⟨c, h⟩
  · obtain ⟨c, h, _⟩ := property_step env st
    exact ⟨c, h⟩
  · obtain ⟨c, h, _⟩ := price_step env st
    exact ⟨c, h⟩

/-- Claim C10: the entry point never reads its thread-identifier argument, so
its result is the same for any two thread identifiers, query and oracle
behaviour held fixed. -/
theorem thread_id_independent (env : Env) (q : String) (t1 t2 : Option String) :
    run_real_estate_agent env q t1 = run_real_estate_agent env q t2 := rfl

/-- Claim C2 counterexample: in the swarm variant a raised client exception
propagates out of `process_query` instead of resolving to a text message. -/
theorem swarm_propagates_counterexample :
    SwarmRouter.process_query (fun _ => Except.error "APIConnectionError") "show me the data"
      = Except.error "APIConnectionError" := rfl

/-- Claim C2 (amended): only the pipeline variant never raises — its entry
point always returns the content of the final stage message; the swarm and
assistants-API variants have no exception handling and propagate a raised
client exception to the caller. -/
theorem entry_point_error_behavior :
    (∀ (env : Env) (q : String) (t : Option String),
      ∃ c, run_real_estate_agent env q t = c
        ∧ (pipeline env [⟨Role.user, q⟩]).getLast? = some ⟨Role.assistant, c⟩)
    ∧ (∀ (r : String → Except String (List String)) (q e : String),
        r q = Except.error e → SwarmRouter.process_query r q = Except.error e)
    ∧ (∀ (env : SdkEnv) (q e : String),
        env.runAssistant AssistantKind.router (routerPrompt q) = Except.error e →
          AgentRouter.process_query env q = Except.error e) := by
  refine ⟨?_, ?_, ?_⟩
  · intro env q t
    obtain ⟨c2, c3, c4, c5, hp, _, _, _⟩ := pipeline_shape env q
    refine ⟨c5, run_eq_c5 env q t c2 c3 c4 c5 hp, ?_⟩
    rw [hp]
    rfl
  · intro r q e h
    unfold SwarmRouter.process_query
    rw [h]
  · intro env q e h
    unfold AgentRouter.process_query
    rw [h]

/-- Claim C2 witness: the two propagation arms at concrete failing oracles. -/
theorem entry_point_error_behavior_witness :
    SwarmRouter.process_query (fun _ => Except.error "boom") "q1" = Except.error "boom"
    ∧ AgentRouter.process_query ⟨fun _ _ => Except.error "boom"⟩ "q2" = Except.error "boom" :=
  ⟨entry_point_error_behavior.2.1 (fun _ => Except.error "boom") "q1" "boom" rfl,
   entry_point_error_behavior.2.2 ⟨fun _ _ => Except.error "boom"⟩ "q2" "boom" rfl⟩

/-- Claim C5: every assistant message carrying a specialist label is an
element of the focused message list the final coordinator hands to the
text-generation call, verbatim — so no source URL present in a specialist
message is dropped while the synthesis prompt is built. -/
theorem specialist_messages_reach_synthesis (st : List Msg) (m : Msg)
    (hm : m ∈ st) (hr : m.role = Role.assistant)
    (ha : pyIn "Agent:" m.content = true) :
    m ∈ focusedMessages st := by
  have hf : m ∈ st.filter agentFilter := by
    refine List.mem_filter.mpr ⟨hm, ?_⟩
    simp [agentFilter, isAI, hr, ha]
  unfold focusedMessages
  simp only [List.mem_cons]
  exact Or.inr (Or.inr hf)

/-- Claim C5 witness: a concrete specialist message is an element of the
focused message list of its transcript. -/
theorem specialist_messages_reach_synthesis_witness :
    (⟨Role.assistant, "Property Agent: sample listings"⟩ : Msg) ∈
      focusedMessages [⟨Role.user, "find a flat"⟩,
        ⟨Role.assistant, "Property Agent: sample listings"⟩] :=
  specialist_messages_reach_synthesis _ _ (by decide) rfl (by decide)

/-- Claim C7: when the text-generation call raises during final synthesis,
the entry point returns the fixed hand-authored fallback answer — a literal
independent of the query, the thread identifier and the search results, hence
identical across repeated failing calls — and that literal contains the three
named listing-site URLs. -/
theorem synthesis_fallback (env : Env) (q : String) (t : Option String)
    (hgen : ∀ msgs, ∃ e, env.generate msgs = Except.error e) :
    run_real_estate_agent env q t = finalFallback
    ∧ pyIn "https://www.rent.com/california/san-francisco-apartments/max-price-3000"
        finalFallback = true
    ∧ pyIn "https://www.forrent.com/find/CA/metro-San+Francisco+Bay/San+Francisco/price-Less+than+3000"
        finalFallback = true
    ∧ pyIn "https://www.zillow.com/san-francisco-ca/apartments/under-3000/"
        finalFallback = true := by
  obtain ⟨c2, c3, c4, hp⟩ := pipeline_shape_genfail env q hgen
  exact ⟨run_eq_c5 env q t c2 c3 c4 finalFallback hp, by decide, by decide, by decide⟩

/-- Claim C7 witness: the fallback answer at a concrete query under the
all-failing environment. -/
theorem synthesis_fallback_witness :
    run_real_estate_agent envDown "apartments please" none = finalFallback
    ∧ pyIn "https://www.rent.com/california/san-francisco-apartments/max-price-3000"
        finalFallback = true
    ∧ pyIn "https://www.forrent.com/find/CA/metro-San+Francisco+Bay/San+Francisco/price-Less+than+3000"
        finalFallback = true
    ∧ pyIn "https://www.zillow.com/san-francisco-ca/apartments/under-3000/"
        finalFallback = true :=
  synthesis_fallback envDown "apartments please" none (fun _ => ⟨"down", rfl⟩)

/-- Claim C8: when the search call of the property handler raises, the
message appended to the transcript before the price stage runs is the
property specialist's fixed fallback text — a function of the query slots
alone, hence byte-identical on every run with the same query — and that text
references Zillow, Apartments.com and Redfin. -/
theorem property_fallback_before_price (env : Env) (q err : String)
    (hs : env.search (listingsQuery (extract_location q)
        (budgetStr (extract_budget q))) = Except.error err) :
    (property_agent env (neighborhood_agent env (coordinator [⟨Role.user, q⟩]))).getLast?
      = some ⟨Role.assistant, propertyFallback (extract_location q)⟩
    ∧ pyIn "Zillow" (propertyFallback (extract_location q)) = true
    ∧ pyIn "Apartments.com" (propertyFallback (extract_location q)) = true
    ∧ pyIn "Redfin" (propertyFallback (extract_location q)) = true := by
  obtain ⟨c2, h2, _⟩ := neighborhood_step env (coordinator [⟨Role.user, q⟩])
  have hslots : locationFrom (neighborhood_agent env (coordinator [⟨Role.user, q⟩]))
        = extract_location q
      ∧ budgetFrom (neighborhood_agent env (coordinator [⟨Role.user, q⟩]))
        = extract_budget q := by
    rw [h2, coordinator_step]
    exact ⟨rfl, rfl⟩
  have hp : property_agent env (neighborhood_agent env (coordinator [⟨Role.user, q⟩]))
      = neighborhood_agent env (coordinator [⟨Role.user, q⟩])
        ++ [⟨Role.assistant, propertyFallback (extract_location q)⟩] := by
    unfold property_agent
    rw [hslots.1, hslots.2, hs]
  refine ⟨?_, ?_, ?_, ?_⟩
  · rw [hp, List.getLast?_concat]
  · unfold propertyFallback
    exact pyIn_right _ _ _ (by decide)
  · unfold propertyFallback
    exact pyIn_right _ _ _ (by decide)
  · unfold propertyFallback
    exact pyIn_right _ _ _ (by decide)

/-- Claim C8 witness: the property fallback at a concrete query under the
all-failing environment. -/
theorem property_fallback_before_price_witness :
    (property_agent envDown (neighborhood_agent envDown (coordinator
        [⟨Role.user, "rooms"⟩]))).getLast?
      = some ⟨Role.assistant, propertyFallback (extract_location "rooms")⟩
    ∧ pyIn "Zillow" (propertyFallback (extract_location "rooms")) = true
    ∧ pyIn "Apartments.com" (propertyFallback (extract_location "rooms")) = true
    ∧ pyIn "Redfin" (propertyFallback (extract_location "rooms")) = true :=
  property_fallback_before_price envDown "rooms" "down" rfl

/-- Claim C6 counterexample: the claim makes keyword matching case-sensitive
outside the analysis branch, so a response containing `Database` but not
`database`, `SQL`, `analysis` or `analyze` should fall through to the
fallback; the code lower-cases the response for the `database` check and
takes the SQL branch. -/
theorem classifier_case_counterexample :
    classifyRoute "Route this to the Database team" = Route.sql
    ∧ classifyRoute_claimed "Route this to the Database team" = Route.fallback := by
  constructor <;> decide

/-- Claim C6 (amended): the classifier checks `SQL` case-sensitively and
`database`, `analysis`, `analyze` case-insensitively, in this order with
first match winning; when none matches, the dispatcher returns the router
assistant's own response. -/
theorem classifier_amended (r : String) :
    ((pyIn "SQL" r = true ∨ pyIn "database" (pyLower r) = true) →
      classifyRoute r = Route.sql)
    ∧ (pyIn "SQL" r = false → pyIn "database" (pyLower r) = false →
        (pyIn "analysis" (pyLower r) = true ∨ pyIn "analyze" (pyLower r) = true) →
          classifyRoute r = Route.analysis)
    ∧ (pyIn "SQL" r = false → pyIn "database" (pyLower r) = false →
        pyIn "analysis" (pyLower r) = false → pyIn "analyze" (pyLower r) = false →
          classifyRoute r = Route.fallback
          ∧ ∀ (env : SdkEnv) (q : String),
              env.runAssistant AssistantKind.router (routerPrompt q) = Except.ok r →
                AgentRouter.process_query env q = Except.ok r) := by
  refine ⟨?_, ?_, ?_⟩
  · intro h
    unfold classifyRoute
    rcases h with h | h <;> simp [h]
  · intro h1 h2 h3
    unfold classifyRoute
    rcases h3 with h | h <;> simp [h1, h2, h]
  · intro h1 h2 h3 h4
    have hc : classifyRoute r = Route.fallback := by
      unfold classifyRoute
      simp [h1, h2, h3, h4]
    refine ⟨hc, ?_⟩
    intro env q hr
    have hd : AgentRouter.process_query env q =
        (match classifyRoute r with
         | Route.sql => env.runAssistant AssistantKind.sqlExpert q
         | Route.analysis => env.runAssistant AssistantKind.dataAnalyzer q
         | Route.fallback => Except.ok r) := by
      unfold AgentRouter.process_query
      rw [hr]
    rw [hd, hc]

/-- Claim C6 witness: a case-sensitive SQL hit and a no-keyword response
returned unchanged by the dispatcher. -/
theorem classifier_amended_witness :
    classifyRoute "use SQL here" = Route.sql
    ∧ AgentRouter.process_query ⟨fun _ _ => Except.ok "no keyword"⟩ "hi"
        = Except.ok "no keyword" :=
  ⟨(classifier_amended "use SQL here").1 (Or.inl (by decide)),
   ((classifier_amended "no keyword").2.2 (by decide) (by decide) (by decide)
      (by decide)).2 ⟨fun _ _ => Except.ok "no keyword"⟩ "hi" rfl⟩

/-- Payload of the answer-with-citations shape, used to separate the
neighborhood/property normalizer from the price normalizer. -/
def acPayload : PVal :=
  PVal.dict [("answer", PVal.str "Good areas exist."),
    ("citations", PVal.list [PVal.dict [("title", PVal.str "Guide"),
      ("url", PVal.str "https://example.com/guide")]])]

/-- Claim C3 counterexample: the price handler does not try the four shapes
in the claimed priority order — it has no answer-with-citations case at all,
so on such a payload it falls through to the stringify-and-scan branch and
never emits the per-citation entry, while the neighborhood handler emits the
claimed shape-2 output. -/
theorem normalizer_order_counterexample :
    formatResultsPrice acPayload ≠ formatResults acPayload
    ∧ formatResults acPayload =
        some "\n\nGood areas exist.\n\n🔗 SOURCES:\n- Guide: https://example.com/guide"
    ∧ pyIn "🔗 SOURCES FOUND:" ((formatResultsPrice acPayload).getD "") = true
    ∧ pyIn "\n- Guide: https://example.com/guide"
        ((formatResultsPrice acPayload).getD "") = false := by
  refine ⟨by decide, by decide, by decide, by decide⟩

/-- Concatenation of the case-1 blocks equals one block per item of the
results list, in order. -/
theorem resultsBlocks_map_dict (items : List (List (String × PVal))) :
    resultsBlocks (items.map PVal.dict) =
      some (strConcat (items.map (fun kvs =>
        "\n\n- " ++ pyStrV (pgetD kvs "content" (pgetD kvs "snippet"
            (PVal.str "No content available")))
          ++ "\n🔗 SOURCE: " ++ pyStrV (pgetD kvs "url"
            (PVal.str "No source URL available"))))) := by
  induction items with
  | nil => rfl
  | cons kvs rest ih =>
    simp only [List.map_cons, resultsBlocks, resultBlock, ih, strConcat]

/-- Concatenation of the citation lines equals one line per citation. -/
theorem citationLines_map (cs : List PVal) :
    citationLines cs = strConcat (cs.map citationLine) := by
  induction cs with
  | nil => rfl
  | cons c rest ih => simp only [List.map_cons, citationLines, ih, strConcat]

/-- Concatenation of the case-3 blocks equals one block per element, indexed
in order. -/
theorem listBlocks_map (items : List PVal) :
    ∀ n, listBlocks n items =
      strConcat ((List.enumFrom n items).map (fun p => listBlock p.1 p.2)) := by
  induction items with
  | nil => intro n; rfl
  | cons r rest ih =>
    intro n
    simp only [List.enumFrom, List.map_cons, listBlocks, ih, strConcat]

/-- Concatenation of the price-handler list blocks equals one block per
element, indexed in order. -/
theorem priceListBlocks_map (items : List PVal) :
    ∀ n, priceListBlocks n items =
      strConcat ((List.enumFrom n items).map (fun p => priceListBlock p.1 p.2)) := by
  induction items with
  | nil => intro n; rfl
  | cons r rest ih =>
    intro n
    simp only [List.enumFrom, List.map_cons, priceListBlocks, ih, strConcat]

/-- Claim C3 (amended): the neighborhood and property normalizer tries the
four shapes in the claimed order and, on each recognized collection shape,
emits exactly one output entry per source item, in order, none dropped and
none duplicated; the price normalizer recognizes only the bare-list and
results-mapping shapes — an answer-with-citations mapping falls through to
its stringify-and-scan branch. -/
theorem normalizer_amended :
    (∀ items : List (List (String × PVal)),
      formatResults (PVal.dict [("results", PVal.list (items.map PVal.dict))]) =
        some (strConcat (items.map (fun kvs =>
          "\n\n- " ++ pyStrV (pgetD kvs "content" (pgetD kvs "snippet"
              (PVal.str "No content available")))
            ++ "\n🔗 SOURCE: " ++ pyStrV (pgetD kvs "url"
              (PVal.str "No source URL available"))))))
    ∧ (∀ (ans : PVal) (cs : List PVal),
        formatResults (PVal.dict [("answer", ans), ("citations", PVal.list cs)]) =
          some ("\n\n" ++ pyStrV ans ++ "\n\n🔗 SOURCES:"
            ++ strConcat (cs.map citationLine)))
    ∧ (∀ items : List PVal,
        formatResults (PVal.list items) =
          some (strConcat ((List.enumFrom 0 items).map (fun p => listBlock p.1 p.2))))
    ∧ (∀ items : List PVal,
        formatResultsPrice (PVal.list items) =
          some (strConcat ((List.enumFrom 0 items).map (fun p => priceListBlock p.1 p.2))))
    ∧ (∀ items : List (List (String × PVal)),
        formatResultsPrice (PVal.dict [("results", PVal.list (items.map PVal.dict))]) =
          some (strConcat (items.map (fun kvs =>
            "\n\n- " ++ pyStrV (pgetD kvs "content" (pgetD kvs "snippet"
                (PVal.str "No content available")))
              ++ "\n🔗 SOURCE: " ++ pyStrV (pgetD kvs "url"
                (PVal.str "No source URL available"))))))
    ∧ (∀ kvs : List (String × PVal), plookup kvs "results" = none →
        formatResultsPrice (PVal.dict kvs) = some (case4Text (PVal.dict kvs)))
    ∧ (∀ (kvs : List (String × PVal)) (items : List PVal),
        plookup kvs "results" = some (PVal.list items) →
          formatResults (PVal.dict kvs) = resultsBlocks items) := by
  refine ⟨?_, ?_, ?_, ?_, ?_, ?_, ?_⟩
  · intro items
    exact resultsBlocks_map_dict items
  · intro ans cs
    rw [← citationLines_map]
    rfl
  · intro items
    rw [← listBlocks_map]
    rfl
  · intro items
    rw [← priceListBlocks_map]
    rfl
  · intro items
    exact resultsBlocks_map_dict items
  · intro kvs h
    have hd : formatResultsPrice (PVal.dict kvs) =
        (match plookup kvs "results" with
         | some (PVal.list items) => resultsBlocks items
         | some _ => none
         | none => some (case4Text (PVal.dict kvs))) := rfl
    rw [hd, h]
  · intro kvs items h
    have hd : formatResults (PVal.dict kvs) =
        (match plookup kvs "results" with
         | some (PVal.list its) => resultsBlocks its
         | some _ => none
         | none =>
           if (plookup kvs "answer").isSome && (plookup kvs "citations").isSome then
             match plookup kvs "citations" with
             | some (PVal.list cs) =>
               some ("\n\n" ++ pyStrV (pgetD kvs "answer" (PVal.str ""))
                 ++ "\n\n🔗 SOURCES:" ++ citationLines cs)
             | _ => none
           else some (case4Text (PVal.dict kvs))) := rfl
    rw [hd, h]

/-- Claim C3 witness: the amended per-shape behaviour at concrete payloads,
including the price normalizer sending an answer-with-citations mapping to
its stringify branch. -/
theorem normalizer_amended_witness :
    formatResults (PVal.dict [("results", PVal.list ([[("content", PVal.str "A"),
        ("url", PVal.str "https://a.example/1")]].map PVal.dict))]) =
      some (strConcat ([[("content", PVal.str "A"),
        ("url", PVal.str "https://a.example/1")]].map (fun kvs =>
          "\n\n- " ++ pyStrV (pgetD kvs "content" (pgetD kvs "snippet"
              (PVal.str "No content available")))
            ++ "\n🔗 SOURCE: " ++ pyStrV (pgetD kvs "url"
              (PVal.str "No source URL available")))))
    ∧ formatResultsPrice (PVal.dict [("answer", PVal.str "A"),
        ("citations", PVal.list [])]) =
      some (case4Text (PVal.dict [("answer", PVal.str "A"),
        ("citations", PVal.list [])])) :=
  ⟨normalizer_amended.1 [[("content", PVal.str "A"),
      ("url", PVal.str "https://a.example/1")]],
   normalizer_amended.2.2.2.2.2.1 [("answer", PVal.str "A"),
      ("citations", PVal.list [])] rfl⟩

/-- Claim C4: the budget slot is read from capture group 1 only, so on a
query whose leftmost budget-regex match comes from the explicit
`budget is/of <number>` alternative (whose number is capture group 2) the
extracted budget is Python `None`, not the phrase's number as the claim
states; the location default and the no-budget default behave as claimed. -/
theorem budget_slot_group_bug :
    extract_budget "budget is 2000" = none
    ∧ budget_claimed "budget is 2000" = "2000"
    ∧ extract_location "apartments downtown" = "San Francisco"
    ∧ extract_budget "apartments downtown" = some "$3000" := by
  refine ⟨by decide, by decide, by decide, by decide⟩

end Adpao
